import Mathlib

/-!
Verification of the TestKit process-isolated test harness (testkit.c).

The development shallowly embeds the harness source:
* the test-case record `tk_testcase` and the registry,
* registration `tk_add_test` (activation gating, System-test argv
  expansion, capacity check),
* the POSIX wait-status macros used by the driver,
* result classification `check_results`,
* the driver loop `run_all_testcases` as a function from the registry and
  the fates of the spawned children to the trace of emitted events.

Named constants that live in the missing header testkit.h
(TK_MAX_TESTS, TK_TIME_LIMIT_SEC) are taken as parameters; the claims are
proved for every value of these parameters.  Callback bodies (utest, init,
fini, stest) are opaque C functions, so a child process's fate is an input
of the model (`BodyOutcome`): it either runs to completion or is killed by
a signal, and it leaves some text in the capture buffer.
-/

namespace TestKit

/-- Signal numbers used by the harness (Linux x86-64 values). -/
def SIGABRT : Nat := 6

/-- SIGSEGV signal number. -/
def SIGSEGV : Nat := 11

/-- SIGALRM signal number, delivered when the alarm(2) timeout fires. -/
def SIGALRM : Nat := 14

/-- The process environment visible to the harness:
`tkRun`/`tkVerbose` model the presence of the TK_RUN / TK_VERBOSE
environment variables, `underscore` models getenv of the underscore
variable (the executable path exported by bash/zsh), `tty` models
isatty(STDOUT_FILENO), and `strsignal` models the libc signal-description
table consulted for unrecognized signals. -/
structure Env where
  tkRun : Bool
  tkVerbose : Bool
  underscore : Option String
  tty : Bool
  strsignal : Nat → String

/-- The test-case record `struct tk_testcase`.  Callback pointers are
modelled by their presence (whether the pointer is non-NULL); `argv` is a
NULL-terminated vector of C strings, modelled as a list of
`Option String` where `none` is a NULL slot. -/
structure tk_testcase where
  name : String
  loc : String
  stest : Bool
  utest : Bool
  init : Bool
  fini : Bool
  argc : Nat
  argv : Option (List (Option String))
deriving Repr, DecidableEq

/-- The registry: the array `tests[TK_MAX_TESTS]` together with the
counter `ntests` is modelled as the list of its first `ntests` entries. -/
abbrev Registry := List tk_testcase

/-- The System-test branch of tk_add_test: expand the caller-supplied
partial argv into a full vector.  A failed tk_assert in the driver process
is fatal and aborts the run, modelled as `Except.error` carrying the
assertion message.  Mirrors the source: assert the record is a System
test, make space for argv[0] and the trailing NULL, fetch the executable
path that bash/zsh export in the underscore environment variable into
argv[0] (fatal when absent), and copy slot i-1 of the caller's vector to
slot i for i = 1 .. argc-1. -/
def expandArgv (env : Env) (t : tk_testcase) : Except String tk_testcase :=
  match t.argv with
  | none => .ok t
  | some callerArgv =>
      if !t.stest then .error "Only system tests can have argv"
      else
        match env.underscore with
        | none =>
            .error "TestKit requires shell put executable in environ; try run with bash"
        | some path =>
            .ok { t with
                  argc := t.argc + 1
                  argv := some (some path :: callerArgv.take t.argc ++ [none]) }

/-- tk_add_test: registration.  Returns the new registry, or a fatal
error.  Mirrors the source: the activation gate first, then the System
argv expansion, then the capacity assertion and the append. -/
def tk_add_test (env : Env) (maxTests : Nat) (tests : Registry)
    (t : tk_testcase) : Except String Registry :=
  -- Only add the test case when TestKit is enabled.
  if !env.tkRun && !env.tkVerbose then .ok tests
  else
    match expandArgv env t with
    | .error msg => .error msg
    | .ok t =>
        if tests.length < maxTests then .ok (tests ++ [t])
        else .error "TestKit supports up to TK_MAX_TESTS test cases"

/-- WTERMSIG(status) = status & 0x7f. -/
def WTERMSIG (status : Nat) : Nat := status % 128

/-- WIFEXITED(status) = (WTERMSIG(status) == 0). -/
def WIFEXITED (status : Nat) : Bool := WTERMSIG status == 0

/-- Reinterpret a byte as a signed char, as glibc's WIFSIGNALED does. -/
def signedChar (n : Nat) : Int :=
  if n % 256 < 128 then (n % 256 : Int) else (n % 256 : Int) - 256

/-- WIFSIGNALED(status) = ((signed char)((status & 0x7f) + 1) >> 1) > 0;
the arithmetic right shift of a signed char by one is division by two
rounding toward negative infinity, which is Int division in Lean. -/
def WIFSIGNALED (status : Nat) : Bool :=
  signedChar (WTERMSIG status + 1) / 2 > 0

/-- WEXITSTATUS(status) = (status >> 8) & 0xff. -/
def WEXITSTATUS (status : Nat) : Nat := status / 256 % 256

/-- pcol: wrap a string in an ANSI color escape when stdout is a tty,
return it unchanged otherwise.  (The 64-byte snprintf buffer in the
source cannot truncate any of the strings the harness passes through it:
the longest literal, "Segmentation fault", occupies 33 bytes with the
escapes; signal descriptions are modelled as fitting likewise.) -/
def pcol (tty : Bool) (s : String) (color : Nat) : String :=
  if tty then "\x1b[0;" ++ toString color ++ "m" ++ s ++ "\x1b[0;0m" else s

/-- The verdict computed by check_results: whether the test passed, and
the exact text printed for its one result line. -/
structure CheckOut where
  succ : Bool
  line : String
deriving Repr, DecidableEq

/-- check_results: print the test result according to the child's exit
status.  A normal exit is PASS; otherwise the failure reason is chosen
from the terminating signal (Timeout / Assertion fail / Segmentation
fault / strsignal), defaulting to "unknown error" when the status is
neither a normal exit nor a signal termination. -/
def check_results (env : Env) (t : tk_testcase) (status : Nat) : CheckOut :=
  if WIFEXITED status then
    { succ := true
      line := "- [" ++ pcol env.tty "PASS" 32 ++ "] " ++ t.name
        ++ " (" ++ t.loc ++ ")\n" }
  else
    let msg := pcol env.tty "unknown error" 31
    let msg :=
      if WIFSIGNALED status then
        let sig := WTERMSIG status
        if sig = SIGALRM then pcol env.tty "Timeout" 33
        else if sig = SIGABRT then pcol env.tty "Assertion fail" 35
        else if sig = SIGSEGV then pcol env.tty "Segmentation fault" 36
        else pcol env.tty (env.strsignal sig) 31
      else msg
    { succ := false
      line := "- [" ++ pcol env.tty "FAIL" 31 ++ "] " ++ t.name
        ++ " (" ++ t.loc ++ ")" ++ " - " ++ msg ++ "\n" }

/-- The fate of one isolated child process: either the code it was asked
to run completed (for a System test, `mainRet` is the value returned by
the re-invoked host entry point; it is unused on the Unit path), or the
child was killed by signal `sig` (timeout alarm, abort, segfault, ...).
`written` is the text the child left in the shared capture buffer. -/
inductive BodyOutcome where
  | completed (mainRet : Int) (written : String)
  | killed (sig : Nat) (written : String)
deriving Repr, DecidableEq

/-- The text a body outcome left in the capture buffer. -/
def BodyOutcome.written : BodyOutcome → String
  | .completed _ w => w
  | .killed _ w => w

/-- The value run_testcase returns when it runs to completion:
`r` starts at 0 and is assigned the host entry point's return value only
on the System path, so a Unit test always returns 0. -/
def run_testcase_ret (t : tk_testcase) (mainRet : Int) : Int :=
  if t.stest then mainRet else 0

/-- The wait status the parent observes for the body child: on
completion the child calls exit(run_testcase(..)), whose low byte becomes
WEXITSTATUS (status = byte << 8); a child killed by signal `sig` yields
status = sig. -/
def waitStatusOf (t : tk_testcase) (o : BodyOutcome) : Nat :=
  match o with
  | .completed mainRet _ => ((run_testcase_ret t mainRet) % 256).toNat * 256
  | .killed sig _ => sig % 128

/-- The byte-level text the driver prints when it dumps a failed test's
captured output in verbose mode: printf(pcol("%s", 90), buf) — the buffer
wrapped in the gray escape when stdout is a tty — followed by one newline
when `!buf[0] || buf[strlen(buf)-1] != '\n'`, i.e. when the buffer is
empty or its last byte is not a newline. -/
def dumpChars (tty : Bool) (buf : List Char) : List Char :=
  (if tty then "\x1b[0;90m".data ++ buf ++ "\x1b[0;0m".data else buf)
    ++ (if buf = [] ∨ buf.getLast? ≠ some '\n' then ['\n'] else [])

/-- The dump as a string (the capture buffer is a byte region; the C
condition reads single bytes, which `dumpChars` models on the character
list underlying the string). -/
def dumpText (tty : Bool) (buf : String) : String :=
  String.mk (dumpChars tty buf.data)

/-- One entry of the driver's observable trace.  `result` and `dump` and
`header` and `summary` carry the exact printed text (via `render`);
`cleanup` records that a cleanup child was forked with an alarm of
`timeout` seconds and waited for (it produces no driver output). -/
inductive Event where
  | header
  | result (line : String) (pass : Bool)
  | dump (text : String)
  | cleanup (timeout : Nat)
  | summary (passed : Nat) (total : Nat)
deriving Repr, DecidableEq

/-- The text an event contributes to standard output. -/
def Event.render : Event → String
  | .header => "\nTestKit\n"
  | .result line _ => line
  | .dump text => text
  | .cleanup _ => ""
  | .summary passed total =>
      "- " ++ toString passed ++ "/" ++ toString total
        ++ " test cases passed.\n"

/-- run_cleanup: fork one more child to run t->fini() under the same
alarm(TK_TIME_LIMIT_SEC) timeout and wait for it, discarding its status
(waitpid(fini_pid, NULL, 0)); nothing happens when fini is NULL.  The
cleanup child's fate is an input that the driver ignores entirely. -/
def run_cleanup (timeLimit : Nat) (t : tk_testcase) (finiOutcome : BodyOutcome)
    : List Event :=
  if t.fini then
    let _ := finiOutcome
    [.cleanup timeLimit]
  else []

/-- The fate of the two children spawned for one test case: the body
child and the optional cleanup child. -/
structure TestWorld where
  body : BodyOutcome
  fini : BodyOutcome
deriving Repr, DecidableEq

/-- The parent's per-iteration work in run_all_testcases: wait for the
body child, classify via check_results, count a pass or (in verbose mode)
dump the capture buffer, then run the cleanup child.  Returns the emitted
events and whether the test passed. -/
def run_one (env : Env) (timeLimit : Nat) (t : tk_testcase) (w : TestWorld)
    : List Event × Bool :=
  let status := waitStatusOf t w.body
  let co := check_results env t status
  let tail :=
    if co.succ then []
    else if env.tkVerbose then [Event.dump (dumpText env.tty w.body.written)]
    else []
  (Event.result co.line co.succ :: tail ++ run_cleanup timeLimit t w.fini,
   co.succ)

/-- The driver's loop body over the zipped registry and child fates,
accumulating events and the passed counter. -/
def runLoop (env : Env) (timeLimit : Nat)
    : List (tk_testcase × TestWorld) → List Event × Nat
  | [] => ([], 0)
  | (t, w) :: rest =>
      let (evs, succ) := run_one env timeLimit t w
      let (evsRest, passedRest) := runLoop env timeLimit rest
      (evs ++ evsRest, (if succ then 1 else 0) + passedRest)

/-- run_all_testcases: do nothing when the registry is empty; otherwise
print the TestKit header, run every registered test in order, and print
the final `- passed/total test cases passed.` summary.  `worlds` supplies
the fate of each test's children (one entry per registered test). -/
def run_all_testcases (env : Env) (timeLimit : Nat) (tests : Registry)
    (worlds : List TestWorld) : List Event :=
  if tests.length = 0 then []
  else
    Event.header :: (runLoop env timeLimit (tests.zip worlds)).1
      ++ [Event.summary (runLoop env timeLimit (tests.zip worlds)).2
            tests.length]

/-- Recognizer for the per-test verdict lines in a trace. -/
def Event.isResult : Event → Bool
  | .result _ _ => true
  | _ => false

/-- Recognizer for the aggregate summary line in a trace. -/
def Event.isSummary : Event → Bool
  | .summary _ _ => true
  | _ => false

/-- Recognizer for verdict lines reported PASS. -/
def Event.isPassResult : Event → Bool
  | .result _ pass => pass
  | _ => false

/-- Recognizer for verbose captured-output dumps. -/
def Event.isDump : Event → Bool
  | .dump _ => true
  | _ => false

/-- Recognizer for cleanup-child spawns. -/
def Event.isCleanup : Event → Bool
  | .cleanup _ => true
  | _ => false

/-- The verdict event run_one emits for test `t` when its body child's
fate is `w.body`. -/
def resultEvent (env : Env) (t : tk_testcase) (w : TestWorld) : Event :=
  Event.result (check_results env t (waitStatusOf t w.body)).line
    (check_results env t (waitStatusOf t w.body)).succ

/-- Whether test `t` passes when its body child's fate is `w.body`. -/
def passes (env : Env) (t : tk_testcase) (w : TestWorld) : Bool :=
  (check_results env t (waitStatusOf t w.body)).succ

/-! Structural lemmas about the driver's trace. -/

lemma run_cleanup_ignores_outcome (tl : Nat) (t : tk_testcase)
    (a b : BodyOutcome) : run_cleanup tl t a = run_cleanup tl t b := rfl

lemma run_one_snd (env : Env) (tl : Nat) (t : tk_testcase) (w : TestWorld) :
    (run_one env tl t w).2 = passes env t w := rfl

lemma run_one_filter_result (env : Env) (tl : Nat) (t : tk_testcase)
    (w : TestWorld) :
    (run_one env tl t w).1.filter Event.isResult = [resultEvent env t w] := by
  simp only [run_one, run_cleanup, resultEvent]
  split <;> split <;> simp [Event.isResult]

lemma run_one_filter_summary (env : Env) (tl : Nat) (t : tk_testcase)
    (w : TestWorld) :
    (run_one env tl t w).1.filter Event.isSummary = [] := by
  simp only [run_one, run_cleanup]
  split <;> split <;> simp [Event.isSummary]

lemma run_one_filter_dump (env : Env) (tl : Nat) (t : tk_testcase)
    (w : TestWorld) :
    (run_one env tl t w).1.filter Event.isDump =
      if env.tkVerbose && !passes env t w then
        [Event.dump (dumpText env.tty w.body.written)]
      else [] := by
  rcases Bool.eq_false_or_eq_true
      (check_results env t (waitStatusOf t w.body)).succ with h1 | h1 <;>
    rcases Bool.eq_false_or_eq_true env.tkVerbose with h2 | h2 <;>
      rcases Bool.eq_false_or_eq_true t.fini with h3 | h3 <;>
        simp [run_one, run_cleanup, passes, h1, h2, h3, Event.isDump]

lemma run_one_filter_cleanup (env : Env) (tl : Nat) (t : tk_testcase)
    (w : TestWorld) :
    (run_one env tl t w).1.filter Event.isCleanup =
      if t.fini then [Event.cleanup tl] else [] := by
  simp only [run_one, run_cleanup]
  split <;> split <;> simp [Event.isCleanup]

lemma run_one_filter_passResult (env : Env) (tl : Nat) (t : tk_testcase)
    (w : TestWorld) :
    (run_one env tl t w).1.filter Event.isPassResult =
      if passes env t w then [resultEvent env t w] else [] := by
  rcases Bool.eq_false_or_eq_true
      (check_results env t (waitStatusOf t w.body)).succ with h1 | h1 <;>
    rcases Bool.eq_false_or_eq_true env.tkVerbose with h2 | h2 <;>
      rcases Bool.eq_false_or_eq_true t.fini with h3 | h3 <;>
        simp [run_one, run_cleanup, passes, resultEvent, h1, h2, h3,
          Event.isPassResult]

lemma runLoop_filter_result (env : Env) (tl : Nat)
    (l : List (tk_testcase × TestWorld)) :
    (runLoop env tl l).1.filter Event.isResult =
      l.map (fun p => resultEvent env p.1 p.2) := by
  induction l with
  | nil => simp [runLoop]
  | cons hd rest ih =>
      rcases hd with ⟨t, w⟩
      simp [runLoop, List.filter_append, ih, run_one_filter_result]

lemma runLoop_filter_summary (env : Env) (tl : Nat)
    (l : List (tk_testcase × TestWorld)) :
    (runLoop env tl l).1.filter Event.isSummary = [] := by
  induction l with
  | nil => simp [runLoop]
  | cons hd rest ih =>
      rcases hd with ⟨t, w⟩
      simp [runLoop, List.filter_append, ih, run_one_filter_summary]

lemma runLoop_passed (env : Env) (tl : Nat)
    (l : List (tk_testcase × TestWorld)) :
    (runLoop env tl l).2 = l.countP (fun p => passes env p.1 p.2) := by
  induction l with
  | nil => simp [runLoop]
  | cons hd rest ih =>
      rcases hd with ⟨t, w⟩
      rcases h : passes env t w <;>
        simp [runLoop, ih, run_one_snd, h, List.countP_cons, Nat.add_comm]

lemma runLoop_filter_passResult_length (env : Env) (tl : Nat)
    (l : List (tk_testcase × TestWorld)) :
    ((runLoop env tl l).1.filter Event.isPassResult).length =
      l.countP (fun p => passes env p.1 p.2) := by
  induction l with
  | nil => simp [runLoop]
  | cons hd rest ih =>
      rcases hd with ⟨t, w⟩
      rcases h : passes env t w <;>
        simp [runLoop, List.filter_append, ih, run_one_filter_passResult, h,
          List.countP_cons, Nat.add_comm]

lemma run_all_eq (env : Env) (tl : Nat) (tests : Registry)
    (worlds : List TestWorld) (hne : tests ≠ []) :
    run_all_testcases env tl tests worlds =
      Event.header :: (runLoop env tl (tests.zip worlds)).1
        ++ [Event.summary (runLoop env tl (tests.zip worlds)).2
              tests.length] := by
  unfold run_all_testcases
  rw [if_neg (by simpa using hne)]

lemma run_all_filter_result (env : Env) (tl : Nat) (tests : Registry)
    (worlds : List TestWorld) (hne : tests ≠ []) :
    (run_all_testcases env tl tests worlds).filter Event.isResult =
      (tests.zip worlds).map (fun p => resultEvent env p.1 p.2) := by
  rw [run_all_eq env tl tests worlds hne]
  simp [List.filter_append, Event.isResult, runLoop_filter_result,
    Event.isSummary]

lemma run_all_filter_passResult_length (env : Env) (tl : Nat)
    (tests : Registry) (worlds : List TestWorld) (hne : tests ≠ []) :
    ((run_all_testcases env tl tests worlds).filter
        Event.isPassResult).length =
      (tests.zip worlds).countP (fun p => passes env p.1 p.2) := by
  rw [run_all_eq env tl tests worlds hne]
  simp [List.filter_append, Event.isPassResult,
    runLoop_filter_passResult_length]

/-! Concrete fixtures used by witnesses and counterexamples. -/

/-- A quiet activated environment (TK_RUN set, not a terminal). -/
def envW : Env :=
  { tkRun := true, tkVerbose := false, underscore := some "/bin/prog"
    tty := false, strsignal := fun n => "signal " ++ toString n }

/-- An environment with neither TK_RUN nor TK_VERBOSE set. -/
def envInert : Env :=
  { tkRun := false, tkVerbose := false, underscore := some "/bin/prog"
    tty := false, strsignal := fun n => "signal " ++ toString n }

/-- A verbose activated environment writing to a terminal. -/
def envVT : Env :=
  { tkRun := true, tkVerbose := true, underscore := some "/bin/prog"
    tty := true, strsignal := fun n => "signal " ++ toString n }

/-- A concrete Unit-kind record. -/
def tUnit : tk_testcase :=
  { name := "add", loc := "test.c:10", stest := false, utest := true
    init := false, fini := false, argc := 0, argv := none }

/-- A concrete Unit-kind record with a cleanup callback. -/
def tUnitFini : tk_testcase :=
  { name := "cleanup", loc := "test.c:11", stest := false, utest := true
    init := false, fini := true, argc := 0, argv := none }

/-- A concrete System-kind record with one caller-supplied argument. -/
def tSys : tk_testcase :=
  { name := "echo", loc := "test.c:20", stest := true, utest := false
    init := false, fini := false, argc := 1, argv := some [some "arg"] }

/-- The FAIL reason as the spec states it: a pure function of the
termination status (and the libc signal-description table): Timeout for
the timeout signal, Assertion fail for abort, Segmentation fault for
SIGSEGV, the signal's description for any other signal, and unknown error
for a termination that is neither a normal exit nor a recognized signal
termination. -/
def spec_fail_reason (strsignal : Nat → String) (status : Nat) : String :=
  if WIFSIGNALED status then
    if WTERMSIG status = SIGALRM then "Timeout"
    else if WTERMSIG status = SIGABRT then "Assertion fail"
    else if WTERMSIG status = SIGSEGV then "Segmentation fault"
    else strsignal (WTERMSIG status)
  else "unknown error"

/-- C1: when the isolated child terminates abnormally, the FAIL reason is
a pure function of the termination status: SIGALRM is reported "Timeout",
SIGABRT "Assertion fail", SIGSEGV "Segmentation fault", any other signal
its strsignal description, and a termination that is neither a normal
exit nor a recognized signal termination "unknown error" (literal
strings, hence stated for a non-terminal stream where pcol adds no color
escapes). -/
theorem tk_C1_fail_classification (env : Env) (t : tk_testcase)
    (status : Nat) (hx : WIFEXITED status = false) (htty : env.tty = false) :
    (check_results env t status).succ = false ∧
    (check_results env t status).line =
      "- [FAIL] " ++ t.name ++ " (" ++ t.loc ++ ")" ++ " - "
        ++ spec_fail_reason env.strsignal status ++ "\n" := by
  unfold check_results spec_fail_reason pcol
  simp [hx, htty]

/-- Witness for C1 at a concrete record and the timeout signal. -/
theorem tk_C1_fail_classification_witness :
    WIFEXITED 14 = false ∧ envW.tty = false ∧
    ((check_results envW tUnit 14).succ = false ∧
     (check_results envW tUnit 14).line =
       "- [FAIL] " ++ tUnit.name ++ " (" ++ tUnit.loc ++ ")" ++ " - "
         ++ spec_fail_reason envW.strsignal 14 ++ "\n") :=
  ⟨by decide, rfl, tk_C1_fail_classification envW tUnit 14 (by decide) rfl⟩

/-- C4: with neither activation toggle present, registration is a
complete no-op: the registry is unchanged and no fatal error is raised,
whatever the record contains. -/
theorem tk_C4_inert_noop (env : Env) (maxTests : Nat) (tests : Registry)
    (t : tk_testcase) (hr : env.tkRun = false) (hv : env.tkVerbose = false) :
    tk_add_test env maxTests tests t = .ok tests := by
  unfold tk_add_test
  simp [hr, hv]

/-- Witness for C4: an inert environment discards even a malformed record
(argv present on a non-System record) without error. -/
theorem tk_C4_inert_noop_witness :
    envInert.tkRun = false ∧ envInert.tkVerbose = false ∧
    tk_add_test envInert 4 [tUnit]
        { tUnit with argv := some [some "bad"] } = .ok [tUnit] :=
  ⟨rfl, rfl,
   tk_C4_inert_noop envInert 4 [tUnit]
     { tUnit with argv := some [some "bad"] } rfl rfl⟩

lemma tk_add_test_active_err (env : Env) (maxTests : Nat) (tests : Registry)
    (t : tk_testcase) (msg : String)
    (hgate : (!env.tkRun && !env.tkVerbose) = false)
    (hea : expandArgv env t = .error msg) :
    tk_add_test env maxTests tests t = .error msg := by
  unfold tk_add_test
  rw [hgate, hea]
  simp

lemma tk_add_test_active_full (env : Env) (maxTests : Nat) (tests : Registry)
    (t t' : tk_testcase) (hgate : (!env.tkRun && !env.tkVerbose) = false)
    (hea : expandArgv env t = .ok t') (hge : ¬tests.length < maxTests) :
    tk_add_test env maxTests tests t =
      .error "TestKit supports up to TK_MAX_TESTS test cases" := by
  unfold tk_add_test
  rw [hgate, hea]
  simp [hge]

lemma tk_add_test_active_ok (env : Env) (maxTests : Nat) (tests : Registry)
    (t t' : tk_testcase) (hgate : (!env.tkRun && !env.tkVerbose) = false)
    (hea : expandArgv env t = .ok t') (hlt : tests.length < maxTests) :
    tk_add_test env maxTests tests t = .ok (tests ++ [t']) := by
  unfold tk_add_test
  rw [hgate, hea]
  simp [hlt]

/-- C5: with activation on, registering into a full registry is a fatal
error (never a silent drop), every successful registration appends at the
end preserving the previously stored records, and the registry never
grows beyond the capacity bound. -/
theorem tk_C5_capacity (env : Env) (maxTests : Nat) (tests : Registry)
    (t : tk_testcase) (hact : env.tkRun = true ∨ env.tkVerbose = true) :
    (tests.length ≥ maxTests →
       ∃ msg, tk_add_test env maxTests tests t = .error msg) ∧
    (∀ tests', tk_add_test env maxTests tests t = .ok tests' →
       tests'.length ≤ maxTests ∧ ∃ t', tests' = tests ++ [t']) := by
  have hgate : (!env.tkRun && !env.tkVerbose) = false := by
    rcases hact with h | h <;> simp [h]
  constructor
  · intro hge
    cases hea : expandArgv env t with
    | error msg => exact ⟨msg, tk_add_test_active_err _ _ _ _ _ hgate hea⟩
    | ok t' =>
        exact ⟨_, tk_add_test_active_full _ _ _ _ _ hgate hea (by omega)⟩
  · intro tests' hok
    cases hea : expandArgv env t with
    | error msg =>
        rw [tk_add_test_active_err _ maxTests tests _ _ hgate hea] at hok
        cases hok
    | ok t' =>
        by_cases hlt : tests.length < maxTests
        · rw [tk_add_test_active_ok _ _ _ _ _ hgate hea hlt] at hok
          cases hok
          constructor
          · simp only [List.length_append, List.length_singleton]
            omega
          · exact ⟨t', rfl⟩
        · rw [tk_add_test_active_full _ _ _ _ _ hgate hea hlt] at hok
          cases hok

/-- Witness for C5 at a registry already at its capacity bound of one. -/
theorem tk_C5_capacity_witness :
    (envW.tkRun = true ∨ envW.tkVerbose = true) ∧
    (([tUnit] : Registry).length ≥ 1 →
       ∃ msg, tk_add_test envW 1 [tUnit] tUnitFini = .error msg) ∧
    (∀ tests', tk_add_test envW 1 [tUnit] tUnitFini = .ok tests' →
       tests'.length ≤ 1 ∧ ∃ t', tests' = [tUnit] ++ [t']) :=
  ⟨Or.inl rfl, (tk_C5_capacity envW 1 [tUnit] tUnitFini (Or.inl rfl)).1,
   (tk_C5_capacity envW 1 [tUnit] tUnitFini (Or.inl rfl)).2⟩

/-- C6: registering a System-kind record with n caller-supplied argument
strings stores an argument vector of n+1 entries plus a NULL terminator —
slot 0 the executable path resolved from the driver's environment, slots
1..n the caller's strings in order — and stores argc = n+1; when the path
cannot be resolved, registration fails fatally. -/
theorem tk_C6_system_argv (env : Env) (maxTests : Nat) (tests : Registry)
    (t : tk_testcase) (args : List String)
    (hact : env.tkRun = true ∨ env.tkVerbose = true)
    (hs : t.stest = true) (ha : t.argv = some (args.map some))
    (hc : t.argc = args.length) (hcap : tests.length < maxTests) :
    (env.underscore = none →
       tk_add_test env maxTests tests t =
         .error "TestKit requires shell put executable in environ; try run with bash") ∧
    (∀ path, env.underscore = some path →
       tk_add_test env maxTests tests t =
         .ok (tests ++ [{ t with argc := args.length + 1
                                 argv := some (some path :: args.map some
                                   ++ [none]) }]) ∧
       (some path :: args.map some ++ [none]).length = (args.length + 1) + 1) := by
  have hgate : (!env.tkRun && !env.tkVerbose) = false := by
    rcases hact with h | h <;> simp [h]
  have htake : (args.map some).take t.argc = args.map some := by
    rw [hc, ← List.length_map args some, List.take_length]
  constructor
  · intro hu
    refine tk_add_test_active_err _ _ _ _ _ hgate ?_
    unfold expandArgv
    rw [ha, hs, hu]
    simp
  · intro path hu
    constructor
    · refine tk_add_test_active_ok _ _ _ _ _ hgate ?_ hcap
      unfold expandArgv
      rw [ha, hs, hu]
      simp only [Bool.not_true, Bool.false_eq_true, if_false]
      rw [htake, hc]
    · simp [List.length_append]

/-- Witness for C6: one caller argument, resolved path present. -/
theorem tk_C6_system_argv_witness :
    (envW.tkRun = true ∨ envW.tkVerbose = true) ∧
    tSys.stest = true ∧ tSys.argv = some (["arg"].map some) ∧
    tSys.argc = ["arg"].length ∧
    (∀ path, envW.underscore = some path →
       tk_add_test envW 4 [] tSys =
         .ok ([] ++ [{ tSys with argc := ["arg"].length + 1
                                 argv := some (some path :: ["arg"].map some
                                   ++ [none]) }]) ∧
       (some path :: ["arg"].map some ++ [none]).length
         = (["arg"].length + 1) + 1) :=
  ⟨Or.inl rfl, rfl, rfl, rfl,
   (tk_C6_system_argv envW 4 [] tSys ["arg"] (Or.inl rfl) rfl rfl rfl
     (by decide)).2⟩

/-! Arithmetic facts about exit statuses, and further fixtures. -/

lemma emod256_toNat_lt (r : Int) : (r % 256).toNat < 256 := by
  have h1 : 0 ≤ r % 256 := Int.emod_nonneg r (by norm_num)
  have h2 : r % 256 < 256 := Int.emod_lt_of_pos r (by norm_num)
  omega

lemma WIFEXITED_mul256 (c : Nat) : WIFEXITED (c * 256) = true := by
  unfold WIFEXITED WTERMSIG
  simp only [beq_iff_eq]
  omega

lemma check_results_exited (env : Env) (t : tk_testcase) (status : Nat)
    (hx : WIFEXITED status = true) :
    check_results env t status =
      { succ := true
        line := "- [" ++ pcol env.tty "PASS" 32 ++ "] " ++ t.name
          ++ " (" ++ t.loc ++ ")\n" } := by
  unfold check_results
  rw [hx]
  simp

lemma waitStatus_completed (t : tk_testcase) (r : Int) (buf : String) :
    waitStatusOf t (.completed r buf) =
      ((run_testcase_ret t r) % 256).toNat * 256 := rfl

lemma completed_passes (env : Env) (t : tk_testcase) (r : Int)
    (buf : String) :
    (check_results env t (waitStatusOf t (.completed r buf))).succ = true := by
  rw [waitStatus_completed, check_results_exited env t _ (WIFEXITED_mul256 _)]

/-- World of a test whose body child completes after the host entry point
returned 1. -/
def wSys : TestWorld := ⟨.completed 1 "", .completed 0 ""⟩

/-- World of a passing test (body completes, buffer empty). -/
def wPass : TestWorld := ⟨.completed 0 "", .completed 0 ""⟩

/-- World of a test aborted by a failed assertion, with captured text. -/
def wFail : TestWorld := ⟨.killed 6 "x\n", .completed 0 ""⟩

/-- Same body fate as `wFail` but the cleanup child times out. -/
def wFailB : TestWorld := ⟨.killed 6 "x\n", .killed 14 ""⟩

/-- C2 counterexample: a System test whose entry-point invocation returns
exit code 1 — the isolated child exits normally with status 1 — is
reported PASS by check_results, not recorded as a per-test failure. -/
theorem tk_C2_counterexample :
    tSys.stest = true ∧
    waitStatusOf tSys (.completed 1 "") = 256 ∧
    WIFEXITED 256 = true ∧ WEXITSTATUS 256 = 1 ∧
    (check_results envW tSys 256).succ = true ∧
    (check_results envW tSys 256).line = "- [PASS] echo (test.c:20)\n" := by
  decide

/-- C2 (amended): a System test whose entry-point invocation returns a
non-zero code makes the child exit normally with that code's low byte,
and the driver reports any normal exit as PASS — a System test fails only
through abnormal termination (e.g. its result-inspection callback
aborting); in any case the remaining tests are not aborted: every
registered record still receives its verdict line. -/
theorem tk_C2_amended (env : Env) (tl : Nat) (t : tk_testcase) (r : Int)
    (buf : String) (w : TestWorld) (tests : Registry)
    (worlds : List TestWorld) (ht : t.stest = true) (hne : tests ≠ [])
    (hlen : worlds.length = tests.length) :
    WIFEXITED (waitStatusOf t (.completed r buf)) = true ∧
    WEXITSTATUS (waitStatusOf t (.completed r buf)) = (r % 256).toNat ∧
    (check_results env t (waitStatusOf t (.completed r buf))).succ = true ∧
    ((check_results env t (waitStatusOf t w.body)).succ = false →
       ∃ sig b, w.body = .killed sig b) ∧
    ((run_all_testcases env tl tests worlds).filter Event.isResult).length
      = tests.length := by
  refine ⟨?_, ?_, completed_passes env t r buf, ?_, ?_⟩
  · rw [waitStatus_completed]
    exact WIFEXITED_mul256 _
  · rw [waitStatus_completed]
    unfold WEXITSTATUS run_testcase_ret
    rw [ht]
    simp only [if_true]
    have h := emod256_toNat_lt r
    omega
  · intro hfail
    cases hw : w.body with
    | completed r' b' =>
        rw [hw, completed_passes env t r' b'] at hfail
        cases hfail
    | killed sig b => exact ⟨sig, b, rfl⟩
  · rw [run_all_filter_result env tl tests worlds hne]
    simp [hlen]

/-- Witness for the amended C2 at a concrete one-test run. -/
theorem tk_C2_amended_witness :
    tSys.stest = true ∧ ([tSys] : Registry) ≠ [] ∧
    ([wSys] : List TestWorld).length = ([tSys] : Registry).length ∧
    (WIFEXITED (waitStatusOf tSys (.completed 1 "")) = true ∧
     WEXITSTATUS (waitStatusOf tSys (.completed 1 "")) = ((1 : Int) % 256).toNat ∧
     (check_results envW tSys (waitStatusOf tSys (.completed 1 ""))).succ = true ∧
     ((check_results envW tSys (waitStatusOf tSys wSys.body)).succ = false →
        ∃ sig b, wSys.body = .killed sig b) ∧
     ((run_all_testcases envW 5 [tSys] [wSys]).filter Event.isResult).length
       = ([tSys] : Registry).length) :=
  ⟨rfl, List.cons_ne_nil _ _, rfl,
   tk_C2_amended envW 5 tSys 1 "" wSys [tSys] [wSys] rfl
     (List.cons_ne_nil _ _) rfl⟩

/-- C3 (amended to non-empty registries: with zero records run_all prints
nothing at all): run_all prints exactly one PASS/FAIL line per record, in
registration order, and exactly one aggregate summary line, the last line
of the run, carrying the number of records reported PASS and the number
of registered records. -/
theorem tk_C3_report_shape (env : Env) (tl : Nat) (tests : Registry)
    (worlds : List TestWorld) (hne : tests ≠ [])
    (hlen : worlds.length = tests.length) :
    (run_all_testcases env tl tests worlds).filter Event.isResult =
      (tests.zip worlds).map (fun p => resultEvent env p.1 p.2) ∧
    ((run_all_testcases env tl tests worlds).filter Event.isResult).length
      = tests.length ∧
    (run_all_testcases env tl tests worlds).filter Event.isSummary =
      [Event.summary
        (((run_all_testcases env tl tests worlds).filter
            Event.isPassResult).length)
        tests.length] ∧
    (run_all_testcases env tl tests worlds).getLast? =
      some (Event.summary
        (((run_all_testcases env tl tests worlds).filter
            Event.isPassResult).length)
        tests.length) := by
  refine ⟨run_all_filter_result env tl tests worlds hne, ?_, ?_, ?_⟩
  · rw [run_all_filter_result env tl tests worlds hne]
    simp [hlen]
  · rw [run_all_filter_passResult_length env tl tests worlds hne]
    rw [run_all_eq env tl tests worlds hne]
    simp [List.filter_append, Event.isSummary, runLoop_filter_summary,
      runLoop_passed, Event.isPassResult]
  · rw [run_all_filter_passResult_length env tl tests worlds hne]
    rw [run_all_eq env tl tests worlds hne, List.getLast?_concat,
      runLoop_passed]

/-- Witness for the amended C3 at a concrete two-test run. -/
theorem tk_C3_report_shape_witness :
    ([tUnit, tUnitFini] : Registry) ≠ [] ∧
    ([wPass, wFail] : List TestWorld).length
      = ([tUnit, tUnitFini] : Registry).length ∧
    ((run_all_testcases envW 5 [tUnit, tUnitFini] [wPass, wFail]).filter
        Event.isResult =
      (([tUnit, tUnitFini] : Registry).zip [wPass, wFail]).map
        (fun p => resultEvent envW p.1 p.2) ∧
     ((run_all_testcases envW 5 [tUnit, tUnitFini] [wPass, wFail]).filter
         Event.isResult).length = ([tUnit, tUnitFini] : Registry).length ∧
     (run_all_testcases envW 5 [tUnit, tUnitFini] [wPass, wFail]).filter
         Event.isSummary =
       [Event.summary
         (((run_all_testcases envW 5 [tUnit, tUnitFini]
             [wPass, wFail]).filter Event.isPassResult).length)
         ([tUnit, tUnitFini] : Registry).length] ∧
     (run_all_testcases envW 5 [tUnit, tUnitFini] [wPass, wFail]).getLast? =
       some (Event.summary
         (((run_all_testcases envW 5 [tUnit, tUnitFini]
             [wPass, wFail]).filter Event.isPassResult).length)
         ([tUnit, tUnitFini] : Registry).length)) :=
  ⟨List.cons_ne_nil _ _, rfl,
   tk_C3_report_shape envW 5 [tUnit, tUnitFini] [wPass, wFail]
     (List.cons_ne_nil _ _) rfl⟩

/-- C3 counterexample: with zero registered records, run_all prints
nothing at all — in particular no aggregate summary line is printed,
against the claim's universal quantification over every sequence. -/
theorem tk_C3_counterexample :
    run_all_testcases envW 5 [] [] = [] ∧
    (run_all_testcases envW 5 [] []).filter Event.isSummary = [] :=
  ⟨rfl, rfl⟩

lemma run_one_body_only (env : Env) (tl : Nat) (t : tk_testcase)
    (w w' : TestWorld) (hb : w.body = w'.body) :
    run_one env tl t w = run_one env tl t w' := by
  simp only [run_one, run_cleanup, hb]

lemma runLoop_body_only (env : Env) (tl : Nat) :
    ∀ (tests : Registry) (ws ws' : List TestWorld),
      ws.map TestWorld.body = ws'.map TestWorld.body →
      runLoop env tl (tests.zip ws) = runLoop env tl (tests.zip ws')
  | [], _, _, _ => rfl
  | _ :: _, [], [], _ => rfl
  | _ :: _, [], _ :: _, h => by simp at h
  | _ :: _, _ :: _, [], h => by simp at h
  | t :: ts, w :: ws, w' :: ws', h => by
      simp only [List.map_cons, List.cons.injEq] at h
      have ih := runLoop_body_only env tl ts ws ws' h.2
      simp only [List.zip] at ih
      simp only [List.zip_cons_cons, runLoop,
        run_one_body_only env tl t w w' h.1, ih]

/-- C7: for a record with a cleanup callback the driver emits exactly one
cleanup-child spawn, with the same timeout, positioned after the verdict
line, whether the test passed or failed; and the cleanup children's fates
never change any part of the trace — verdict lines, dumps, or the passed
counter: two runs whose body children fare the same produce identical
traces. -/
theorem tk_C7_cleanup_isolation (env : Env) (tl : Nat) (t : tk_testcase)
    (w w' : TestWorld) (tests : Registry)
    (worlds worlds' : List TestWorld) (hb : w.body = w'.body)
    (hbs : worlds.map TestWorld.body = worlds'.map TestWorld.body) :
    ((run_one env tl t w).1.filter Event.isCleanup =
       if t.fini then [Event.cleanup tl] else []) ∧
    (t.fini = true →
       (run_one env tl t w).1.getLast? = some (Event.cleanup tl)) ∧
    (run_one env tl t w).1.head? = some (resultEvent env t w) ∧
    run_one env tl t w = run_one env tl t w' ∧
    run_all_testcases env tl tests worlds
      = run_all_testcases env tl tests worlds' := by
  refine ⟨run_one_filter_cleanup env tl t w, ?_, rfl,
    run_one_body_only env tl t w w' hb, ?_⟩
  · intro hf
    simp only [run_one, run_cleanup, hf, if_true]
    rw [List.getLast?_concat]
  · unfold run_all_testcases
    rw [runLoop_body_only env tl tests worlds worlds' hbs]

/-- Witness for C7: an aborting unit test with a cleanup callback, the
cleanup child once exiting cleanly and once timing out. -/
theorem tk_C7_cleanup_isolation_witness :
    wFail.body = wFailB.body ∧
    ([wFail] : List TestWorld).map TestWorld.body
      = ([wFailB] : List TestWorld).map TestWorld.body ∧
    (((run_one envW 5 tUnitFini wFail).1.filter Event.isCleanup =
        if tUnitFini.fini then [Event.cleanup 5] else []) ∧
     (tUnitFini.fini = true →
        (run_one envW 5 tUnitFini wFail).1.getLast?
          = some (Event.cleanup 5)) ∧
     (run_one envW 5 tUnitFini wFail).1.head?
       = some (resultEvent envW tUnitFini wFail) ∧
     run_one envW 5 tUnitFini wFail = run_one envW 5 tUnitFini wFailB ∧
     run_all_testcases envW 5 [tUnitFini] [wFail]
       = run_all_testcases envW 5 [tUnitFini] [wFailB]) :=
  ⟨rfl, rfl,
   tk_C7_cleanup_isolation envW 5 tUnitFini wFail wFailB [tUnitFini]
     [wFail] [wFailB] rfl rfl⟩

/-- C8: a Unit-kind test whose body runs to completion is reported PASS,
and one killed by the assertion-failure primitive (SIGABRT) is reported
FAIL with reason Assertion fail (stated for a non-terminal stream, where
pcol adds no color escapes). -/
theorem tk_C8_unit_verdicts (env : Env) (t : tk_testcase) (r : Int)
    (buf buf' : String) (hu : t.stest = false) (htty : env.tty = false) :
    ((check_results env t (waitStatusOf t (.completed r buf))).succ = true ∧
     (check_results env t (waitStatusOf t (.completed r buf))).line =
       "- [PASS] " ++ t.name ++ " (" ++ t.loc ++ ")\n") ∧
    ((check_results env t (waitStatusOf t (.killed SIGABRT buf'))).succ
       = false ∧
     (check_results env t (waitStatusOf t (.killed SIGABRT buf'))).line =
       "- [FAIL] " ++ t.name ++ " (" ++ t.loc ++ ")" ++ " - "
         ++ "Assertion fail" ++ "\n") := by
  constructor
  · rw [check_results_exited env t _
      (by rw [waitStatus_completed]; exact WIFEXITED_mul256 _)]
    simp [pcol, htty]
  · have h1 : waitStatusOf t (.killed SIGABRT buf') = 6 := rfl
    rw [h1]
    unfold check_results
    rw [show WIFEXITED 6 = false from by decide,
      show WIFSIGNALED 6 = true from by decide]
    simp [WTERMSIG, SIGALRM, SIGABRT, pcol, htty]

/-- Witness for C8 at a concrete unit record. -/
theorem tk_C8_unit_verdicts_witness :
    tUnit.stest = false ∧ envW.tty = false ∧
    (((check_results envW tUnit
         (waitStatusOf tUnit (.completed 0 ""))).succ = true ∧
      (check_results envW tUnit
         (waitStatusOf tUnit (.completed 0 ""))).line =
        "- [PASS] " ++ tUnit.name ++ " (" ++ tUnit.loc ++ ")\n") ∧
     ((check_results envW tUnit
         (waitStatusOf tUnit (.killed SIGABRT "out"))).succ = false ∧
      (check_results envW tUnit
         (waitStatusOf tUnit (.killed SIGABRT "out"))).line =
        "- [FAIL] " ++ tUnit.name ++ " (" ++ tUnit.loc ++ ")" ++ " - "
          ++ "Assertion fail" ++ "\n")) :=
  ⟨rfl, rfl, tk_C8_unit_verdicts envW tUnit 0 "" "out" rfl rfl⟩

lemma dumpChars_notty_getLast (buf : List Char) :
    (dumpChars false buf).getLast? = some '\n' := by
  unfold dumpChars
  by_cases h : buf = [] ∨ buf.getLast? ≠ some '\n'
  · rw [if_pos h]
    simp [List.getLast?_concat]
  · rw [if_neg h]
    push_neg at h
    simp [h.2]

/-- C9 (amended): the captured output is dumped exactly when verbose mode
is active and the test was reported FAIL; the dump is the captured text
with a newline appended when that text is empty or does not already end
in one; when standard output is not a terminal the printed dump therefore
always ends in a newline (on a terminal, the trailing color-reset escape
follows the final newline). -/
theorem tk_C9_verbose_dump (env : Env) (tl : Nat) (t : tk_testcase)
    (w : TestWorld) :
    ((∃ s, Event.dump s ∈ (run_one env tl t w).1) ↔
       env.tkVerbose = true ∧ passes env t w = false) ∧
    (∀ s, Event.dump s ∈ (run_one env tl t w).1 →
       s = dumpText env.tty w.body.written) ∧
    (env.tty = false → ∀ s, Event.dump s ∈ (run_one env tl t w).1 →
       s.data.getLast? = some '\n') := by
  have hmem : ∀ s : String, (Event.dump s ∈ (run_one env tl t w).1) ↔
      Event.dump s ∈ (run_one env tl t w).1.filter Event.isDump := by
    intro s
    rw [List.mem_filter]
    simp [Event.isDump]
  have hfil := run_one_filter_dump env tl t w
  have hdo : ∀ s, Event.dump s ∈ (run_one env tl t w).1 →
      s = dumpText env.tty w.body.written := by
    intro s hs
    rw [hmem s, hfil] at hs
    by_cases hc : (env.tkVerbose && !passes env t w) = true
    · rw [if_pos hc] at hs
      simpa using hs
    · rw [if_neg hc] at hs
      simp at hs
  refine ⟨⟨?_, ?_⟩, hdo, ?_⟩
  · rintro ⟨s, hs⟩
    rw [hmem s, hfil] at hs
    by_cases hc : (env.tkVerbose && !passes env t w) = true
    · simpa using hc
    · rw [if_neg hc] at hs
      simp at hs
  · rintro ⟨hv, hp⟩
    refine ⟨dumpText env.tty w.body.written, ?_⟩
    rw [hmem, hfil, if_pos (by rw [hv, hp]; rfl)]
    simp
  · intro htty s hs
    rw [hdo s hs, htty]
    exact dumpChars_notty_getLast _

/-- C9 counterexample: on a terminal, when the captured text already ends
in a newline, the printed dump ends with the color-reset escape — its
last character is not a newline. -/
theorem tk_C9_counterexample :
    Event.dump (dumpText true "x\n") ∈ (run_one envVT 5 tUnit wFail).1 ∧
    (dumpText true "x\n").data.getLast? ≠ some '\n' := by
  decide

/-- C10: on the Unit path the per-test result variable stays 0, so a
Unit test's body child always exits with status 0 on normal completion
and is reported PASS; a Unit test is reported FAIL only when its child
was killed by a signal. -/
theorem tk_C10_unit_exit (env : Env) (t : tk_testcase) (r : Int)
    (buf : String) (w : TestWorld) (hu : t.stest = false) :
    run_testcase_ret t r = 0 ∧
    waitStatusOf t (.completed r buf) = 0 ∧
    (check_results env t (waitStatusOf t (.completed r buf))).succ = true ∧
    ((check_results env t (waitStatusOf t w.body)).succ = false →
       ∃ sig b, w.body = .killed sig b) := by
  have hret : ∀ r' : Int, run_testcase_ret t r' = 0 := by
    intro r'
    unfold run_testcase_ret
    rw [hu]
    rfl
  have hstat : ∀ (r' : Int) (b' : String),
      waitStatusOf t (.completed r' b') = 0 := by
    intro r' b'
    rw [waitStatus_completed, hret r']
    rfl
  refine ⟨hret r, hstat r buf, ?_, ?_⟩
  · rw [hstat r buf, check_results_exited env t 0 (by decide)]
  · intro hfail
    cases hw : w.body with
    | completed r' b' =>
        rw [hw, hstat r' b',
          check_results_exited env t 0 (by decide)] at hfail
        simp at hfail
    | killed sig b => exact ⟨sig, b, rfl⟩

/-- Witness for C10 at a concrete unit record whose body child was killed
by SIGABRT. -/
theorem tk_C10_unit_exit_witness :
    tUnit.stest = false ∧
    (run_testcase_ret tUnit 0 = 0 ∧
     waitStatusOf tUnit (.completed 0 "") = 0 ∧
     (check_results envW tUnit
        (waitStatusOf tUnit (.completed 0 ""))).succ = true ∧
     ((check_results envW tUnit
         (waitStatusOf tUnit wFail.body)).succ = false →
        ∃ sig b, wFail.body = .killed sig b)) :=
  ⟨rfl, tk_C10_unit_exit envW tUnit 0 "" wFail rfl⟩

end TestKit
